import Mathlib

/-!
Verification of the BOLT 12 Offers onion-message dispatch layer
(`lightning/src/onion_message/offers.rs`): the message-kind registry
(`is_known_type`, `tlv_type`), the encode path (`Writeable::write`), and
the decode path (`ReadableArgs::read` with `OffersMessage::parse`) with its
failure-classification policy.

The message bodies (`InvoiceRequest`, `Invoice`, `InvoiceError`), the error
types (`ParseError`, `DecodeError`) and the logging sink live in other files
of the repository; they are modelled from the spec, which declares the
bodies' own parsing/validation/signature logic out of scope.
-/

/-- Modelled from the spec: `DecodeError` from `crate::ln::msgs` is not under
src/. The spec needs a distinguished generic "invalid value" error together
with other hard decode errors that are propagated verbatim. -/
inductive DecodeError where
  | UnknownVersion
  | UnknownRequiredFeature
  | InvalidValue
  | ShortRead
  | BadLengthDescriptor
deriving DecidableEq

/-- Modelled from the spec: the semantic-validation error detail produced by
a message body's own constructor (`crate::offers::parse::SemanticError`, not
under src/); the dispatch layer treats it as opaque detail for logging. -/
inductive SemanticError where
  | MissingAmount
  | MissingDescription
  | MissingPayerMetadata
deriving DecidableEq

/-- Modelled from the spec: the signature-verification error detail
(a `secp256k1` error, not under src/); opaque to the dispatch layer. -/
inductive SignatureError where
  | InvalidSignature
  | MissingSignature
deriving DecidableEq

/-- Modelled from the spec: `ParseError` from `crate::offers::parse` is not
under src/. Besides the three classifications the propagation policy
enumerates, the real type has further variants (continuation and bech32
failures); they realise the "any classification not explicitly enumerated"
case handled by the catch-all arm of the decode path. -/
inductive ParseError where
  | Decode (e : DecodeError)
  | InvalidSemantics (e : SemanticError)
  | InvalidSignature (e : SignatureError)
  | InvalidContinuation
  | InvalidBech32Hrp
deriving DecidableEq

/-- Modelled from the spec: an `InvoiceRequest` message body
(`crate::offers::invoice_request`, not under src/). Its own
parsing/validation/signature logic is out of scope for the core; the body is
modelled as the wire bytes it serializes to. -/
structure InvoiceRequest where
  bytes : List Nat
deriving DecidableEq

/-- Modelled from the spec: the classification performed by the fallible
constructor `InvoiceRequest::try_from` (not under src/): bytes are either
rejected as malformed encoding, invalid semantics, invalid signature or an
unenumerated failure, or accepted. -/
def classifyInvoiceRequest : List Nat → Option ParseError
  | [] => some (ParseError.Decode DecodeError.ShortRead)
  | 0 :: _ => some (ParseError.Decode DecodeError.InvalidValue)
  | 1 :: _ => some (ParseError.InvalidSemantics SemanticError.MissingPayerMetadata)
  | 2 :: _ => some (ParseError.InvalidSignature SignatureError.InvalidSignature)
  | 3 :: _ => some ParseError.InvalidContinuation
  | _ => none

/-- Modelled from the spec: the fallible constructor bytes → invoice request
(`TryFrom<Vec<u8>> for InvoiceRequest`, not under src/). -/
def InvoiceRequest.try_from (bytes : List Nat) : Except ParseError InvoiceRequest :=
  match classifyInvoiceRequest bytes with
  | some e => Except.error e
  | none => Except.ok ⟨bytes⟩

/-- Modelled from the spec: the invoice request body's own serializer (not
under src/); a constructible body serializes to its wire bytes. -/
def InvoiceRequest.write (m : InvoiceRequest) : List Nat := m.bytes

/-- Modelled from the spec: an `Invoice` message body
(`crate::offers::invoice`, not under src/), modelled as its wire bytes. -/
structure Invoice where
  bytes : List Nat
deriving DecidableEq

/-- Modelled from the spec: the classification performed by the fallible
constructor `Invoice::try_from` (not under src/). -/
def classifyInvoice : List Nat → Option ParseError
  | [] => some (ParseError.Decode DecodeError.ShortRead)
  | 0 :: _ => some (ParseError.Decode DecodeError.BadLengthDescriptor)
  | 1 :: _ => some (ParseError.InvalidSemantics SemanticError.MissingAmount)
  | 2 :: _ => some (ParseError.InvalidSignature SignatureError.MissingSignature)
  | 3 :: _ => some ParseError.InvalidBech32Hrp
  | _ => none

/-- Modelled from the spec: the fallible constructor bytes → invoice
(`TryFrom<Vec<u8>> for Invoice`, not under src/). -/
def Invoice.try_from (bytes : List Nat) : Except ParseError Invoice :=
  match classifyInvoice bytes with
  | some e => Except.error e
  | none => Except.ok ⟨bytes⟩

/-- Modelled from the spec: the invoice body's own serializer (not under
src/). -/
def Invoice.write (m : Invoice) : List Nat := m.bytes

/-- Modelled from the spec: an `InvoiceError` message body
(`crate::offers::invoice_error`, not under src/), modelled as its wire
bytes. -/
structure InvoiceError where
  bytes : List Nat
deriving DecidableEq

/-- Modelled from the spec: the dedicated reader `InvoiceError::read` (not
under src/) decodes directly from the byte source with a self-describing
format; a truncated (empty) source is a short read, as the source's use of
the question-mark operator on this reader shows it can fail with a
`DecodeError`. -/
def InvoiceError.read (source : List Nat) : Except DecodeError InvoiceError :=
  match source with
  | [] => Except.error DecodeError.ShortRead
  | bs => Except.ok ⟨bs⟩

/-- Modelled from the spec: the invoice error body's own serializer (not
under src/); a constructible body serializes to its (nonempty) wire bytes. -/
def InvoiceError.write (m : InvoiceError) : List Nat := m.bytes

/-- TLV record type for an invoice request in the `onionmsg_tlv` TLV stream
(BOLT 4). -/
def INVOICE_REQUEST_TLV_TYPE : Nat := 64

/-- TLV record type for an invoice in the `onionmsg_tlv` TLV stream. -/
def INVOICE_TLV_TYPE : Nat := 66

/-- TLV record type for an invoice error in the `onionmsg_tlv` TLV stream. -/
def INVOICE_ERROR_TLV_TYPE : Nat := 68

/-- The closed union of BOLT 12 Offers messages carried via onion messages
(`enum OffersMessage`, offers.rs lines 42-55). -/
inductive OffersMessage where
  | InvoiceRequest (m : InvoiceRequest)
  | Invoice (m : Invoice)
  | InvoiceError (m : InvoiceError)
deriving DecidableEq

/-- Whether `tlv_type` corresponds to a TLV record for Offers
(`OffersMessage::is_known_type`, offers.rs lines 59-64). TLV types are u64
in the source; `Nat` covers the whole u64 range and the match performs only
equality tests. -/
def OffersMessage.is_known_type (tlv_type : Nat) : Bool :=
  tlv_type == INVOICE_REQUEST_TLV_TYPE || tlv_type == INVOICE_TLV_TYPE ||
    tlv_type == INVOICE_ERROR_TLV_TYPE

/-- The TLV record type for the message (`OffersMessage::tlv_type`,
offers.rs lines 67-73). -/
def OffersMessage.tlv_type : OffersMessage → Nat
  | OffersMessage.InvoiceRequest _ => INVOICE_REQUEST_TLV_TYPE
  | OffersMessage.Invoice _ => INVOICE_TLV_TYPE
  | OffersMessage.InvoiceError _ => INVOICE_ERROR_TLV_TYPE

/-- Dispatch of buffered bytes by type code (`OffersMessage::parse`,
offers.rs lines 75-81); the question-mark operator on the bodies'
constructors propagates their `ParseError` unchanged. -/
def OffersMessage.parse (tlv_type : Nat) (bytes : List Nat) :
    Except ParseError OffersMessage :=
  if tlv_type = INVOICE_REQUEST_TLV_TYPE then
    match InvoiceRequest.try_from bytes with
    | Except.ok m => Except.ok (OffersMessage.InvoiceRequest m)
    | Except.error e => Except.error e
  else if tlv_type = INVOICE_TLV_TYPE then
    match Invoice.try_from bytes with
    | Except.ok m => Except.ok (OffersMessage.Invoice m)
    | Except.error e => Except.error e
  else
    Except.error (ParseError.Decode DecodeError.InvalidValue)

/-- Serialization dispatch (`Writeable::write for OffersMessage`, offers.rs
lines 84-92): each variant delegates to its contained message's serializer.
The source writes into a `Writer`; the bytes appended are modelled as the
produced list. -/
def OffersMessage.write : OffersMessage → List Nat
  | OffersMessage.InvoiceRequest message => message.write
  | OffersMessage.Invoice message => message.write
  | OffersMessage.InvoiceError message => message.write

/-- Log severity levels of the logging interface (modelled from the spec:
the sink accepts a severity level; `log_trace!` uses the trace level). -/
inductive LogLevel where
  | Gossip
  | Trace
  | Debug
  | Info
  | Warn
  | Error
deriving DecidableEq

/-- The error detail formatted into a diagnostic log line by the decode
path: either the semantic-error detail or the signature-error detail. -/
inductive LogDetail where
  | semantics (e : SemanticError)
  | signature (e : SignatureError)
deriving DecidableEq

/-- One invocation of the diagnostic sink: severity, the TLV type named in
the formatted message, and the error detail formatted into it. -/
structure LogEntry where
  level : LogLevel
  tlvType : Nat
  detail : LogDetail
deriving DecidableEq

/-- The decode entry point (`ReadableArgs::read for OffersMessage`,
offers.rs lines 94-117). The byte source is modelled as the list of bytes
it yields; `read_to_end` buffers them all (on an in-memory source it cannot
fail, so the source's `unwrap` never panics in this model). The result is
paired with the list of log lines emitted to the logger during the call. -/
def OffersMessage.read (tlv_type : Nat) (source : List Nat) :
    Except DecodeError OffersMessage × List LogEntry :=
  if tlv_type = INVOICE_ERROR_TLV_TYPE then
    match InvoiceError.read source with
    | Except.ok m => (Except.ok (OffersMessage.InvoiceError m), [])
    | Except.error e => (Except.error e, [])
  else
    let bytes := source
    match OffersMessage.parse tlv_type bytes with
    | Except.ok message => (Except.ok message, [])
    | Except.error (ParseError.Decode e) => (Except.error e, [])
    | Except.error (ParseError.InvalidSemantics e) =>
        (Except.error DecodeError.InvalidValue,
          [⟨LogLevel.Trace, tlv_type, LogDetail.semantics e⟩])
    | Except.error (ParseError.InvalidSignature e) =>
        (Except.error DecodeError.InvalidValue,
          [⟨LogLevel.Trace, tlv_type, LogDetail.signature e⟩])
    | Except.error _ => (Except.error DecodeError.InvalidValue, [])

/-- Whether a variant could have been produced by its own kind's parser; the
round-trip law is stated for these constructible values. -/
def OffersMessage.constructible : OffersMessage → Bool
  | OffersMessage.InvoiceRequest m => (classifyInvoiceRequest m.bytes).isNone
  | OffersMessage.Invoice m => (classifyInvoice m.bytes).isNone
  | OffersMessage.InvoiceError m => !m.bytes.isEmpty

/-- Constructor discriminant of a variant, used to state that the
variant-to-code mapping separates the kinds. -/
def OffersMessage.kind : OffersMessage → Nat
  | OffersMessage.InvoiceRequest _ => 0
  | OffersMessage.Invoice _ => 1
  | OffersMessage.InvoiceError _ => 2

/-- The classification-to-outcome policy of the decode path (the error arms
of the match in offers.rs lines 104-116): a malformed-encoding failure
propagates its own decode error, and every other classification — the two
downgraded ones and any not explicitly enumerated — collapses to the generic
invalid-value error. -/
def policyOutcome : ParseError → DecodeError
  | ParseError.Decode e => e
  | _ => DecodeError.InvalidValue

/-- Helper: on any type code other than 68 the decode path buffers the whole
source and classifies the outcome of `OffersMessage.parse` by the
classification-to-outcome policy, logging only the downgraded failures. -/
theorem OffersMessage.read_eq_buffered (tlv_type : Nat) (source : List Nat)
    (h68 : tlv_type ≠ INVOICE_ERROR_TLV_TYPE) :
    OffersMessage.read tlv_type source =
      match OffersMessage.parse tlv_type source with
      | Except.ok message => (Except.ok message, [])
      | Except.error (ParseError.Decode e) => (Except.error e, [])
      | Except.error (ParseError.InvalidSemantics e) =>
          (Except.error DecodeError.InvalidValue,
            [⟨LogLevel.Trace, tlv_type, LogDetail.semantics e⟩])
      | Except.error (ParseError.InvalidSignature e) =>
          (Except.error DecodeError.InvalidValue,
            [⟨LogLevel.Trace, tlv_type, LogDetail.signature e⟩])
      | Except.error _ => (Except.error DecodeError.InvalidValue, []) := by
  unfold OffersMessage.read
  rw [if_neg h68]

/-- Helper: decoding with type code 68 takes the direct reader branch. -/
theorem OffersMessage.read_eq_direct (source : List Nat) :
    OffersMessage.read INVOICE_ERROR_TLV_TYPE source =
      match InvoiceError.read source with
      | Except.ok m => (Except.ok (OffersMessage.InvoiceError m), [])
      | Except.error e => (Except.error e, []) := by
  unfold OffersMessage.read
  rw [if_pos rfl]

/-- C1: on the decode path, every parse failure maps to the caller outcome by
a total policy: a malformed-encoding failure `ParseError.Decode e` propagates
as the hard decode error `e` itself, invalid-semantics and invalid-signature
failures are downgraded to the generic invalid-value decode error, every
classification not explicitly enumerated collapses to that same generic
error, and decode never succeeds after a parse failure. -/
theorem OffersMessage.read_failure_policy (tlv_type : Nat) (source : List Nat)
    (pe : ParseError) (h68 : tlv_type ≠ INVOICE_ERROR_TLV_TYPE)
    (hp : OffersMessage.parse tlv_type source = Except.error pe) :
    (OffersMessage.read tlv_type source).fst = Except.error (policyOutcome pe) := by
  have h := OffersMessage.read_eq_buffered tlv_type source h68
  rw [hp] at h
  rw [h]
  cases pe <;> rfl

/-- Witness for C1 at type code 64 on a payload whose parse fails with
invalid semantics. -/
theorem OffersMessage.read_failure_policy_witness :
    (OffersMessage.read 64 [1]).fst = Except.error DecodeError.InvalidValue :=
  OffersMessage.read_failure_policy 64 [1]
    (ParseError.InvalidSemantics SemanticError.MissingPayerMetadata)
    (by decide) (by rfl)

/-- C3: is_known_type returns true for exactly the type codes 64, 66 and 68
and false for every other code; it is a total function on codes. -/
theorem OffersMessage.is_known_type_iff (c : Nat) :
    OffersMessage.is_known_type c = true ↔ (c = 64 ∨ c = 66 ∨ c = 68) := by
  simp [OffersMessage.is_known_type, INVOICE_REQUEST_TLV_TYPE, INVOICE_TLV_TYPE,
    INVOICE_ERROR_TLV_TYPE, or_assoc]

/-- Witness for C3: the characterization applied at the concrete codes 64
and 65. -/
theorem OffersMessage.is_known_type_iff_witness :
    OffersMessage.is_known_type 64 = true ∧
      OffersMessage.is_known_type 65 ≠ true :=
  ⟨(OffersMessage.is_known_type_iff 64).mpr (Or.inl rfl),
    fun h => by
      rcases (OffersMessage.is_known_type_iff 65).mp h with h | h | h <;> exact absurd h (by decide)⟩

/-- C4: decoding with type code 68 is exactly the dedicated error-report
reader: its result (success or failure) is returned verbatim as the
invoice-error variant, no log line is emitted, and the generic buffered
parse path is never consulted. -/
theorem OffersMessage.read_invoice_error_direct (source : List Nat) :
    OffersMessage.read INVOICE_ERROR_TLV_TYPE source =
      ((InvoiceError.read source).map OffersMessage.InvoiceError, []) := by
  rw [OffersMessage.read_eq_direct source]
  cases InvoiceError.read source <;> rfl

/-- C5: tlv_type is a total, pure mapping giving each variant exactly one
code — invoice request to 64, invoice to 66, invoice error to 68 — and it is
injective across variant kinds. -/
theorem OffersMessage.tlv_type_total_injective :
    (∀ m, (OffersMessage.InvoiceRequest m).tlv_type = 64) ∧
    (∀ m, (OffersMessage.Invoice m).tlv_type = 66) ∧
    (∀ m, (OffersMessage.InvoiceError m).tlv_type = 68) ∧
    (∀ v w : OffersMessage, v.tlv_type = w.tlv_type → v.kind = w.kind) := by
  refine ⟨fun _ => rfl, fun _ => rfl, fun _ => rfl, ?_⟩
  intro v w h
  cases v <;> cases w <;>
    simp_all [OffersMessage.tlv_type, OffersMessage.kind, INVOICE_REQUEST_TLV_TYPE,
      INVOICE_TLV_TYPE, INVOICE_ERROR_TLV_TYPE]

/-- Witness for C5: the injectivity part applied to two concrete variants
sharing the code 64. -/
theorem OffersMessage.tlv_type_total_injective_witness :
    (OffersMessage.InvoiceRequest ⟨[9]⟩).kind =
      (OffersMessage.InvoiceRequest ⟨[7]⟩).kind :=
  OffersMessage.tlv_type_total_injective.2.2.2
    (OffersMessage.InvoiceRequest ⟨[9]⟩) (OffersMessage.InvoiceRequest ⟨[7]⟩) rfl

/-- C9: encoding is total (infallible) and adds no framing: each variant's
encoding is exactly the byte sequence of its contained message's own
serializer, with nothing prepended or appended by the dispatch layer. -/
theorem OffersMessage.write_delegates :
    (∀ m, OffersMessage.write (OffersMessage.InvoiceRequest m) = InvoiceRequest.write m) ∧
    (∀ m, OffersMessage.write (OffersMessage.Invoice m) = Invoice.write m) ∧
    (∀ m, OffersMessage.write (OffersMessage.InvoiceError m) = InvoiceError.write m) :=
  ⟨fun _ => rfl, fun _ => rfl, fun _ => rfl⟩

/-- C2: round-trip — decoding a constructible variant's own encoding under
the variant's own type code succeeds and yields the variant back, both for
the buffered kinds (invoice request, invoice) and, via its dedicated reader
path, for the error-report kind. -/
theorem OffersMessage.decode_encode_roundtrip (v : OffersMessage)
    (h : v.constructible = true) :
    (OffersMessage.read v.tlv_type v.write).fst = Except.ok v := by
  cases v with
  | InvoiceRequest m =>
      have hc : classifyInvoiceRequest m.bytes = none := by
        simpa [OffersMessage.constructible, Option.isNone_iff_eq_none] using h
      simp [OffersMessage.read, OffersMessage.tlv_type, OffersMessage.write,
        OffersMessage.parse, InvoiceRequest.try_from, InvoiceRequest.write, hc,
        INVOICE_REQUEST_TLV_TYPE, INVOICE_TLV_TYPE, INVOICE_ERROR_TLV_TYPE]
  | Invoice m =>
      have hc : classifyInvoice m.bytes = none := by
        simpa [OffersMessage.constructible, Option.isNone_iff_eq_none] using h
      simp [OffersMessage.read, OffersMessage.tlv_type, OffersMessage.write,
        OffersMessage.parse, Invoice.try_from, Invoice.write, hc,
        INVOICE_REQUEST_TLV_TYPE, INVOICE_TLV_TYPE, INVOICE_ERROR_TLV_TYPE]
  | InvoiceError m =>
      obtain ⟨bs⟩ := m
      cases bs with
      | nil => simp [OffersMessage.constructible] at h
      | cons a t =>
          simp [OffersMessage.read, OffersMessage.tlv_type, OffersMessage.write,
            InvoiceError.read, InvoiceError.write, INVOICE_ERROR_TLV_TYPE]

/-- Witness for C2 at a concrete constructible invoice variant. -/
theorem OffersMessage.decode_encode_roundtrip_witness :
    (OffersMessage.read (OffersMessage.tlv_type (OffersMessage.Invoice ⟨[9]⟩))
        (OffersMessage.write (OffersMessage.Invoice ⟨[9]⟩))).fst =
      Except.ok (OffersMessage.Invoice ⟨[9]⟩) :=
  OffersMessage.decode_encode_roundtrip (OffersMessage.Invoice ⟨[9]⟩) rfl

/-- C6: decoding with any type code outside the known set fails hard with
the malformed-encoding classification: parse classifies it as
`ParseError.Decode DecodeError.InvalidValue`, and the decode path propagates
that hard error directly with no log line; it never succeeds. -/
theorem OffersMessage.read_unknown_type_rejected (c : Nat) (source : List Nat)
    (h : OffersMessage.is_known_type c = false) :
    OffersMessage.parse c source =
        Except.error (ParseError.Decode DecodeError.InvalidValue) ∧
      OffersMessage.read c source = (Except.error DecodeError.InvalidValue, []) := by
  have hne : ¬(c = 64 ∨ c = 66 ∨ c = 68) := by
    intro hc
    rw [(OffersMessage.is_known_type_iff c).mpr hc] at h
    exact Bool.noConfusion h
  push_neg at hne
  obtain ⟨h64, h66, h68⟩ := hne
  have hp : OffersMessage.parse c source =
      Except.error (ParseError.Decode DecodeError.InvalidValue) := by
    unfold OffersMessage.parse
    rw [if_neg (show ¬(c = INVOICE_REQUEST_TLV_TYPE) from h64),
      if_neg (show ¬(c = INVOICE_TLV_TYPE) from h66)]
  refine ⟨hp, ?_⟩
  have hr := OffersMessage.read_eq_buffered c source h68
  rw [hp] at hr
  exact hr

/-- Witness for C6 at the unknown type code 65. -/
theorem OffersMessage.read_unknown_type_rejected_witness :
    OffersMessage.parse 65 [0] =
        Except.error (ParseError.Decode DecodeError.InvalidValue) ∧
      OffersMessage.read 65 [0] = (Except.error DecodeError.InvalidValue, []) :=
  OffersMessage.read_unknown_type_rejected 65 [0] rfl

/-- C7: the diagnostic sink is invoked exactly once, at trace severity and
carrying the type code and the error detail, precisely when the buffered
parse fails with invalid semantics or invalid signature; no log is emitted
on success, on malformed-encoding or unenumerated failures, on unknown
codes, or on the type-68 direct-reader path. -/
theorem OffersMessage.read_logging_iff (tlv_type : Nat) (source : List Nat) :
    (OffersMessage.read tlv_type source).snd =
      (if tlv_type = INVOICE_ERROR_TLV_TYPE then []
       else
        match OffersMessage.parse tlv_type source with
        | Except.error (ParseError.InvalidSemantics e) =>
            [⟨LogLevel.Trace, tlv_type, LogDetail.semantics e⟩]
        | Except.error (ParseError.InvalidSignature e) =>
            [⟨LogLevel.Trace, tlv_type, LogDetail.signature e⟩]
        | _ => []) := by
  by_cases h : tlv_type = INVOICE_ERROR_TLV_TYPE
  · subst h
    rw [OffersMessage.read_eq_direct source, if_pos rfl]
    cases InvoiceError.read source <;> rfl
  · rw [OffersMessage.read_eq_buffered tlv_type source h, if_neg h]
    cases OffersMessage.parse tlv_type source with
    | ok m => rfl
    | error pe => cases pe <;> rfl

/-- C8: for the buffered type codes 64 and 66, any payload the kind's own
parser rejects yields a hard decode failure — never a success, and never a
panic since the decode path is a total function of the buffered bytes in
this model. -/
theorem OffersMessage.read_garbage_fails (tlv_type : Nat) (source : List Nat)
    (hknown : tlv_type = INVOICE_REQUEST_TLV_TYPE ∨ tlv_type = INVOICE_TLV_TYPE)
    (hbad : ∃ pe, OffersMessage.parse tlv_type source = Except.error pe) :
    ∃ e, (OffersMessage.read tlv_type source).fst = Except.error e := by
  obtain ⟨pe, hp⟩ := hbad
  have h68 : tlv_type ≠ INVOICE_ERROR_TLV_TYPE := by
    rcases hknown with h | h <;> subst h <;> decide
  have hr := OffersMessage.read_eq_buffered tlv_type source h68
  rw [hp] at hr
  refine ⟨policyOutcome pe, ?_⟩
  rw [hr]
  cases pe <;> rfl

/-- Witness for C8 at type code 64 with the empty (truncated) payload. -/
theorem OffersMessage.read_garbage_fails_witness :
    ∃ e, (OffersMessage.read 64 []).fst = Except.error e :=
  OffersMessage.read_garbage_fails 64 [] (Or.inl rfl)
    ⟨ParseError.Decode DecodeError.ShortRead, rfl⟩

/-- C10: whenever decode succeeds with a variant, the supplied type code is
known and equals the variant's own type code - code 64 only ever produces an
invoice-request variant, 66 only an invoice variant, 68 only an
invoice-error variant, and no other code ever succeeds. -/
theorem OffersMessage.read_success_code_agreement (tlv_type : Nat)
    (source : List Nat) (v : OffersMessage)
    (h : (OffersMessage.read tlv_type source).fst = Except.ok v) :
    OffersMessage.is_known_type tlv_type = true ∧ v.tlv_type = tlv_type := by
  by_cases h68 : tlv_type = INVOICE_ERROR_TLV_TYPE
  · subst h68
    rw [OffersMessage.read_eq_direct source] at h
    cases hr : InvoiceError.read source with
    | error e => rw [hr] at h; simp at h
    | ok m =>
        rw [hr] at h
        simp only [Except.ok.injEq] at h
        subst h
        exact ⟨by decide, rfl⟩
  · rw [OffersMessage.read_eq_buffered tlv_type source h68] at h
    cases hp : OffersMessage.parse tlv_type source with
    | error pe => rw [hp] at h; cases pe <;> simp at h
    | ok m =>
        rw [hp] at h
        simp only [Except.ok.injEq] at h
        subst h
        unfold OffersMessage.parse at hp
        by_cases h64 : tlv_type = INVOICE_REQUEST_TLV_TYPE
        · subst h64
          rw [if_pos rfl] at hp
          cases ht : InvoiceRequest.try_from source with
          | error e => rw [ht] at hp; simp at hp
          | ok mr =>
              rw [ht] at hp
              simp only [Except.ok.injEq] at hp
              subst hp
              exact ⟨by decide, rfl⟩
        · by_cases h66 : tlv_type = INVOICE_TLV_TYPE
          · subst h66
            rw [if_neg (by decide), if_pos rfl] at hp
            cases ht : Invoice.try_from source with
            | error e => rw [ht] at hp; simp at hp
            | ok mi =>
                rw [ht] at hp
                simp only [Except.ok.injEq] at hp
                subst hp
                exact ⟨by decide, rfl⟩
          · rw [if_neg h64, if_neg h66] at hp
            simp at hp

/-- Witness for C10 at a concrete successful decode with type code 64. -/
theorem OffersMessage.read_success_code_agreement_witness :
    OffersMessage.is_known_type 64 = true ∧
      (OffersMessage.InvoiceRequest ⟨[9]⟩).tlv_type = 64 :=
  OffersMessage.read_success_code_agreement 64 [9]
    (OffersMessage.InvoiceRequest ⟨[9]⟩) rfl
